import Mathlib

/-!
Shallow embedding of the event-selection, effect-application and monthly
financial tick engine of the Centible game (src/game/src/events.ts,
src/game/src/gameState.ts, finance.ts).

JavaScript numbers are modelled as rationals, `Math.random()` draws are
passed as explicit rational parameters (each draw is a value in `[0,1)`),
and the process-wide mutable `customEvents` array is passed explicitly to
the functions that read it.  Display-only string fields of events
(`title`, `description`, `label`, `explain`) carry no behaviour and are
omitted from the event records; everything the engine branches on is kept.
-/

namespace Centible

/-- The clamp helper of finance.ts: `Math.max(min, Math.min(max, n))`. -/
def clamp (n lo hi : ℚ) : ℚ := max lo (min hi n)

/-- JavaScript `Math.round`: round half up, i.e. the floor of `q + 1/2`. -/
def jsRound (q : ℚ) : ℚ := (⌊q + 1/2⌋ : ℤ)

/-- JavaScript array indexing `l[i]` at an integer index: `undefined`
(modelled as `none`) when the index is negative or past the end. -/
def jsIndex {α : Type} (l : List α) (i : ℤ) : Option α :=
  if 0 ≤ i then l.get? i.toNat else none

/-- The scenario identifiers of gameState.ts. -/
inductive ScenarioId where
  | classic
  | student
  | startup
  | custom
deriving DecidableEq

/-- The five event tags of events.ts. -/
inductive Tag where
  | career
  | lifestyle
  | social
  | finance
  | risk
deriving DecidableEq

/-- The stat vector `GameStats` of gameState.ts. -/
structure GameStats where
  month : ℚ
  budget : ℚ
  impulse : ℚ
  savings : ℚ
  debt : ℚ
  income : ℚ
  fixedExpenses : ℚ
  happiness : ℚ
  stress : ℚ

/-- The sparse effect delta `EventEffect` of events.ts: a partial record
over the eight stat names; `none` models an absent key. -/
structure EventEffect where
  budget : Option ℚ := none
  impulse : Option ℚ := none
  savings : Option ℚ := none
  debt : Option ℚ := none
  income : Option ℚ := none
  fixedExpenses : Option ℚ := none
  happiness : Option ℚ := none
  stress : Option ℚ := none

/-- An event choice (display strings omitted). -/
structure EventChoice where
  id : String
  effects : EventEffect

/-- A game event (display strings omitted). -/
structure GameEvent where
  id : String
  tag : Tag
  choices : List EventChoice
  condition : Option (GameStats → Bool) := none
  weight : Option ℚ := none
  cooldown : Option ℚ := none

/-- The bookkeeping state `GameState` of gameState.ts (the goal/win fields
of the excluded goal layer are not modelled). -/
structure GameState where
  stats : GameStats
  log : List String := []
  gameOver : Bool := false
  lastEventId : Option String := none
  lastTag : Option Tag := none
  lastSeen : List (String × ℚ) := []
  scenarioId : ScenarioId

/-- events.ts `applyEffects`: for every key present in the effect delta,
add the delta to the current value (an absent key adds nothing, exactly as
the spread of untouched keys does, and a present `undefined` adds 0 by the
`v ?? 0` guard); then overwrite `budget` with the post-delta
`income - fixedExpenses`. -/
def applyEffects (stats : GameStats) (effects : EventEffect) : GameStats :=
  let next : GameStats :=
    { month := stats.month
      budget := stats.budget + effects.budget.getD 0
      impulse := stats.impulse + effects.impulse.getD 0
      savings := stats.savings + effects.savings.getD 0
      debt := stats.debt + effects.debt.getD 0
      income := stats.income + effects.income.getD 0
      fixedExpenses := stats.fixedExpenses + effects.fixedExpenses.getD 0
      happiness := stats.happiness + effects.happiness.getD 0
      stress := stats.stress + effects.stress.getD 0 }
  { next with budget := next.income - next.fixedExpenses }

/-- finance.ts: the impulse-spending trigger probability
`Math.min(0.4, prev.impulse / 100 * 0.4)`. -/
def impulseProb (prev : GameStats) : ℚ :=
  min ((2:ℚ)/5) (prev.impulse / 100 * ((2:ℚ)/5))

/-- finance.ts: the impulse-driven variable spend of one tick.  `r1` is the
trigger draw (`Math.random() < impulseProb`), `r2` the amount draw:
`Math.round(10 + r2 * (impulse * 2))` when triggered, else 0. -/
def variableSpend (r1 r2 : ℚ) (prev : GameStats) : ℚ :=
  if r1 < impulseProb prev then jsRound (10 + r2 * (prev.impulse * 2)) else 0

/-- finance.ts settlement block: from pre-tick savings and debt and the net
cash flow, produce post-settlement `(savings, debt)`.  Positive net goes to
savings; a deficit is covered from savings when possible, else savings are
zeroed and the remainder becomes new debt. -/
def settle (savings debt net : ℚ) : ℚ × ℚ :=
  if 0 ≤ net then (savings + net, debt)
  else
    let deficit := -net
    if deficit ≤ savings then (savings - deficit, debt)
    else (0, debt + (deficit - savings))

/-- The result record of `endOfPeriodTick`. -/
structure TickResult where
  stats : GameStats
  logs : List String

/-- finance.ts `endOfPeriodTick`: impulse spend draw, net cash flow,
settlement, 1% debt interest, 0.2% savings interest, budget bookkeeping
from the (unchanged) income and fixed expenses, mood drift, impulse decay,
month increment. -/
def endOfPeriodTick (r1 r2 : ℚ) (prev : GameStats) : TickResult :=
  let vs := variableSpend r1 r2 prev
  let net := prev.income - prev.fixedExpenses - vs
  let sd := settle prev.savings prev.debt net
  let savings1 := sd.1
  let debt1 := sd.2
  let debt2 := if 0 < debt1 then debt1 + jsRound (debt1 * (1/100)) else debt1
  let savings2 :=
    if 0 < savings1 then savings1 + jsRound (savings1 * (1/500)) else savings1
  let budget := prev.income - prev.fixedExpenses
  let happiness := clamp (prev.happiness + (if 0 ≤ net then 1 else -2)) 0 100
  let stress := clamp (prev.stress + (if 0 ≤ net then -1 else 3)) 0 100
  let impulse := clamp (prev.impulse - 1) 0 100
  let logs :=
    (if r1 < impulseProb prev then
      ["Impulse spending this period: -$" ++ toString vs] else []) ++
    (if 0 ≤ net then ["Positive cash flow: +$" ++ toString net ++ " to savings"]
     else if -net ≤ prev.savings then
      ["Covered deficit from savings: -$" ++ toString (-net)]
     else ["Deficit led to new debt: +$" ++ toString (-net - prev.savings)]) ++
    (if 0 < debt1 ∧ 0 < jsRound (debt1 * (1/100)) then
      ["Debt interest: +$" ++ toString (jsRound (debt1 * (1/100)))] else []) ++
    (if 0 < savings1 ∧ 0 < jsRound (savings1 * (1/500)) then
      ["Savings interest: +$" ++ toString (jsRound (savings1 * (1/500)))] else [])
  { stats :=
      { prev with
        month := prev.month + 1
        budget := budget
        savings := savings2
        debt := debt2
        happiness := happiness
        stress := stress
        impulse := impulse }
    logs := logs }

/-- The debt-repayment condition used by all four pay-debt events:
`s.savings >= 1000 && s.debt > 0`. -/
def payDebtCond (s : GameStats) : Bool :=
  decide (1000 ≤ s.savings) && decide (0 < s.debt)

/-- Classic pack, event "pay-debt". -/
def classicPayDebt : GameEvent :=
  { id := "pay-debt", tag := Tag.finance, cooldown := some 2
    condition := some payDebtCond
    choices :=
      [ { id := "pay-500"
          effects := { savings := some (-500), debt := some (-500),
                       stress := some (-2), happiness := some 2 } },
        { id := "pay-1000"
          effects := { savings := some (-1000), debt := some (-1000),
                       stress := some (-4), happiness := some 4 } },
        { id := "skip", effects := {} } ] }

/-- Classic pack, event "negotiate-bills". -/
def classicNegotiateBills : GameEvent :=
  { id := "negotiate-bills", tag := Tag.finance, cooldown := some 4
    choices :=
      [ { id := "negotiate"
          effects := { fixedExpenses := some (-100), stress := some 1,
                       happiness := some 1 } },
        { id := "switch"
          effects := { fixedExpenses := some (-200), happiness := some (-2) } },
        { id := "skip", effects := {} } ] }

/-- Classic pack, event "side-gig". -/
def classicSideGig : GameEvent :=
  { id := "side-gig", tag := Tag.career, cooldown := some 3
    choices :=
      [ { id := "accept", effects := { savings := some 200, stress := some 5 } },
        { id := "decline", effects := {} } ] }

/-- Classic pack, event "impulse-buy" (condition `s.savings > 100`). -/
def classicImpulseBuy : GameEvent :=
  { id := "impulse-buy", tag := Tag.risk, cooldown := some 2
    condition := some (fun s => decide (100 < s.savings))
    choices :=
      [ { id := "buy"
          effects := { savings := some (-100), happiness := some 10,
                       impulse := some 10 } },
        { id := "skip", effects := { impulse := some (-5), stress := some 2 } } ] }

/-- Classic pack, event "unexpected-bill". -/
def classicUnexpectedBill : GameEvent :=
  { id := "unexpected-bill", tag := Tag.finance, cooldown := some 4
    choices :=
      [ { id := "pay", effects := { savings := some (-300), stress := some 5 } },
        { id := "defer", effects := { debt := some 300, stress := some 10 } } ] }

/-- Classic pack, event "rent-change". -/
def classicRentChange : GameEvent :=
  { id := "rent-change", tag := Tag.lifestyle, cooldown := some 6
    choices :=
      [ { id := "upgrade"
          effects := { fixedExpenses := some 400, happiness := some 8 } },
        { id := "same", effects := {} },
        { id := "roommate"
          effects := { fixedExpenses := some (-300), happiness := some (-5) } } ] }

/-- Classic pack, event "annual-raise". -/
def classicAnnualRaise : GameEvent :=
  { id := "annual-raise", tag := Tag.career, cooldown := some 6
    choices :=
      [ { id := "accept", effects := { income := some 200, stress := some 5 } },
        { id := "decline", effects := {} } ] }

/-- The classic pack of events.ts. -/
def classicEvents : List GameEvent :=
  [ classicPayDebt, classicNegotiateBills, classicSideGig, classicImpulseBuy,
    classicUnexpectedBill, classicRentChange, classicAnnualRaise ]

/-- The student pack of events.ts. -/
def studentEvents : List GameEvent :=
  [ { id := "pay-debt-student", tag := Tag.finance, cooldown := some 2
      condition := some payDebtCond
      choices :=
        [ { id := "pay-500"
            effects := { savings := some (-500), debt := some (-500),
                         stress := some (-2), happiness := some 2 } },
          { id := "pay-1000"
            effects := { savings := some (-1000), debt := some (-1000),
                         stress := some (-4), happiness := some 4 } },
          { id := "skip", effects := {} } ] },
    { id := "find-roommate", tag := Tag.lifestyle, cooldown := some 6
      choices :=
        [ { id := "find"
            effects := { fixedExpenses := some (-200), happiness := some (-2),
                         stress := some 1 } },
          { id := "skip", effects := {} } ] },
    { id := "textbooks", tag := Tag.finance, cooldown := some 4
      choices :=
        [ { id := "buy-new", effects := { savings := some (-250) } },
          { id := "buy-used"
            effects := { savings := some (-120), stress := some 2 } },
          { id := "borrow", effects := { stress := some 5 } } ] },
    { id := "campus-job", tag := Tag.career, cooldown := some 3
      choices :=
        [ { id := "apply", effects := { savings := some 150, stress := some 5 } },
          { id := "skip", effects := { happiness := some 2 } } ] },
    { id := "roommate-conflict", tag := Tag.lifestyle, cooldown := some 5
      choices :=
        [ { id := "cover", effects := { savings := some (-250), stress := some 5 } },
          { id := "landlord", effects := { stress := some 5 } } ] } ]

/-- The startup pack of events.ts. -/
def startupEvents : List GameEvent :=
  [ { id := "pay-debt-startup", tag := Tag.finance, cooldown := some 2
      condition := some payDebtCond
      choices :=
        [ { id := "pay-500"
            effects := { savings := some (-500), debt := some (-500),
                         stress := some (-2), happiness := some 2 } },
          { id := "pay-1000"
            effects := { savings := some (-1000), debt := some (-1000),
                         stress := some (-4), happiness := some 4 } },
          { id := "skip", effects := {} } ] },
    { id := "cut-office-costs", tag := Tag.lifestyle, cooldown := some 6
      choices :=
        [ { id := "move-remote"
            effects := { fixedExpenses := some (-300), happiness := some (-2),
                         stress := some 1 } },
          { id := "downsize"
            effects := { fixedExpenses := some (-150), happiness := some (-1) } },
          { id := "skip", effects := {} } ] },
    { id := "pitch-trip", tag := Tag.career, cooldown := some 4
      choices :=
        [ { id := "go", effects := { savings := some (-300), stress := some 10 } },
          { id := "remote", effects := { happiness := some (-2) } } ] },
    { id := "equity-vs-salary", tag := Tag.finance, cooldown := some 6
      choices :=
        [ { id := "equity"
            effects := { income := some (-200), happiness := some 5 } },
          { id := "salary", effects := {} } ] },
    { id := "coworking", tag := Tag.lifestyle, cooldown := some 6
      choices :=
        [ { id := "rent"
            effects := { fixedExpenses := some 200, happiness := some 3 } },
          { id := "home", effects := {} } ] } ]

/-- The fixed structural debt-repayment event injected by `setCustomEvents`. -/
def debtEventCustom : GameEvent :=
  { id := "pay-debt-custom", tag := Tag.finance, cooldown := some 2
    condition := some payDebtCond
    choices :=
      [ { id := "pay-500"
          effects := { savings := some (-500), debt := some (-500),
                       stress := some (-2), happiness := some 2 } },
        { id := "pay-1000"
          effects := { savings := some (-1000), debt := some (-1000),
                       stress := some (-4), happiness := some 4 } },
        { id := "skip", effects := {} } ] }

/-- The fixed structural expense-reduction event injected by
`setCustomEvents`. -/
def expenseEventCustom : GameEvent :=
  { id := "cut-expense-custom", tag := Tag.finance, cooldown := some 4
    choices :=
      [ { id := "cut-100"
          effects := { fixedExpenses := some (-100), stress := some 1,
                       happiness := some 1 } },
        { id := "cut-200"
          effects := { fixedExpenses := some (-200), happiness := some (-2) } },
        { id := "skip", effects := {} } ] }

/-- events.ts `setCustomEvents`: the new value of the process-wide
`customEvents` list produced from the supplied list — the supplied events
followed by the two structural events.  The result depends only on the
argument (the previous catalog is discarded wholesale). -/
def setCustomEvents (events : List GameEvent) : List GameEvent :=
  events ++ [debtEventCustom, expenseEventCustom]

/-- events.ts `scenarioEvents`: the static per-scenario catalogs.  The
`custom` entry captured the initial (empty) `customEvents` array at module
load; `pickEvent` handles the custom scenario specially and never reads it. -/
def scenarioEvents : ScenarioId → List GameEvent
  | ScenarioId.classic => classicEvents
  | ScenarioId.student => studentEvents
  | ScenarioId.startup => startupEvents
  | ScenarioId.custom => []

/-- The accumulating walk of events.ts `weightedRandom`: return the first
item whose weight exceeds the remaining draw, subtracting as we go; `none`
when the list is exhausted. -/
def wrScan {α : Type} : List (α × ℚ) → ℚ → Option α
  | [], _ => none
  | x :: xs, r => if r < x.2 then some x.1 else wrScan xs (r - x.2)

/-- events.ts `weightedRandom` with the uniform draw `r` made explicit
(the source draws `Math.random() * total`): walk the items, and fall back
to the last item when the walk overshoots.  `none` models the undefined
access `items[items.length - 1]` on an empty list. -/
def weightedRandom {α : Type} (items : List (α × ℚ)) (r : ℚ) : Option α :=
  let total := (items.map Prod.snd).sum
  match wrScan items (r * total) with
  | some a => some a
  | none => items.getLast?.map Prod.fst

/-- The pack resolution of `pickEvent`: the custom catalog for the custom
scenario, else the static catalog; an empty resolved pack falls back to
the classic pack (`sourcePack.length > 0 ? sourcePack : classicEvents`). -/
def resolvePack (customEvents : List GameEvent) (sid : ScenarioId) :
    List GameEvent :=
  let sourcePack :=
    if sid = ScenarioId.custom then customEvents else scenarioEvents sid
  if 0 < sourcePack.length then sourcePack else classicEvents

/-- The condition-eligibility test used by the fallback branches:
`!ev.condition || ev.condition(stats)`. -/
def condPasses (stats : GameStats) (ev : GameEvent) : Bool :=
  match ev.condition with
  | none => true
  | some c => c stats

/-- The cooldown test of the candidate filter:
`now - (lastSeen?.[ev.id] ?? -Infinity) < (ev.cooldown ?? 0)`; an event
never seen has effectively infinite elapsed time and is never on cooldown. -/
def onCooldown (lastSeen : List (String × ℚ)) (now : ℚ) (ev : GameEvent) :
    Bool :=
  match lastSeen.lookup ev.id with
  | none => false
  | some m => decide (now - m < ev.cooldown.getD 0)

/-- The candidate filter of `pickEvent`: not the immediately preceding
event, condition satisfied, and not on cooldown. -/
def isCandidate (st : GameState) (ev : GameEvent) : Bool :=
  !(decide (st.lastEventId = some ev.id)) &&
    condPasses st.stats ev &&
    !(onCooldown st.lastSeen st.stats.month ev)

/-- The sampling weight of a candidate: declared weight (default 1),
multiplied by 0.35 when the tag matches `lastTag`. -/
def effectiveWeight (lastTag : Option Tag) (ev : GameEvent) : ℚ :=
  let w := ev.weight.getD 1
  if lastTag = some ev.tag then w * ((7:ℚ)/20) else w

/-- events.ts `pickEvent` (the cascading variant at lines 427-459), with
the process-wide `customEvents` list and the uniform draw `r` made
explicit.  `none` models returning `undefined`.  One `Math.random()` call
is consumed on every path; `r` stands for that draw. -/
def pickEvent (customEvents : List GameEvent) (state : GameState) (r : ℚ) :
    Option GameEvent :=
  let pack := resolvePack customEvents state.scenarioId
  let candidates := pack.filter (isCandidate state)
  let weighted := candidates.map (fun ev => (ev, effectiveWeight state.lastTag ev))
  if weighted.length = 0 then
    let fallback := pack.filter (condPasses state.stats)
    if 0 < fallback.length then
      jsIndex fallback ⌊r * (fallback.length : ℚ)⌋
    else
      let classicFallback := classicEvents.filter (condPasses state.stats)
      (jsIndex classicFallback ⌊r * (classicFallback.length : ℚ)⌋).orElse
        (fun _ => classicEvents.get? 0)
  else
    weightedRandom weighted r

/-! Concrete game states used by the witnesses and counterexamples below. -/

/-- The classic starting stat vector `baseStats` of gameState.ts. -/
def baseStats : GameStats :=
  { month := 1, budget := 0, impulse := 30, savings := 1000, debt := 0,
    income := 2500, fixedExpenses := 1800, happiness := 60, stress := 40 }

/-- A fresh classic game, as produced by `initialGameState`. -/
def freshClassicState : GameState :=
  { stats := baseStats, scenarioId := ScenarioId.classic }

/-- Stats with zero savings, so that both conditioned classic events
(pay-debt and impulse-buy) are ineligible. -/
def cexStats : GameStats :=
  { month := 1, budget := 0, impulse := 30, savings := 0, debt := 0,
    income := 2500, fixedExpenses := 1800, happiness := 60, stress := 40 }

/-- A classic game at month 1 in which every classic event was last seen at
month 1, so every event is still inside its cooldown window. -/
def cexState : GameState :=
  { stats := cexStats, scenarioId := ScenarioId.classic,
    lastSeen := [("pay-debt", 1), ("negotiate-bills", 1), ("side-gig", 1),
                 ("impulse-buy", 1), ("unexpected-bill", 1), ("rent-change", 1),
                 ("annual-raise", 1)] }

/-- Stats at month 5 with zero savings. -/
def seenStats : GameStats :=
  { month := 5, budget := 0, impulse := 30, savings := 0, debt := 0,
    income := 2500, fixedExpenses := 1800, happiness := 60, stress := 40 }

/-- A classic game at month 5 where negotiate-bills was seen at month 1, so
its 4-month cooldown has just elapsed. -/
def seenState : GameState :=
  { stats := seenStats, scenarioId := ScenarioId.classic,
    lastSeen := [("negotiate-bills", 1)] }

/-- A classic game whose last presented event was negotiate-bills. -/
def repeatState : GameState :=
  { stats := baseStats, scenarioId := ScenarioId.classic,
    lastEventId := some "negotiate-bills", lastTag := some Tag.finance }

/-- A caller-supplied event that reuses the structural debt-repayment id. -/
def rogueEvent : GameEvent :=
  { id := "pay-debt-custom", tag := Tag.finance, choices := [] }

/-- The stat vector of the deficit-to-debt scenario of the spec. -/
def deficitStats : GameStats :=
  { month := 1, budget := 0, impulse := 0, savings := 200, debt := 0,
    income := 900, fixedExpenses := 1500, happiness := 60, stress := 40 }

/-! Helper lemmas about the embedded operations. -/

lemma clamp_nonneg (n : ℚ) : 0 ≤ clamp n 0 100 := le_max_left _ _

lemma clamp_le_hundred (n : ℚ) : clamp n 0 100 ≤ 100 :=
  max_le (by norm_num) (min_le_left _ _)

lemma jsRound_nonneg {q : ℚ} (h : 0 ≤ q) : 0 ≤ jsRound q := by
  unfold jsRound
  have : (0:ℤ) ≤ ⌊q + 1/2⌋ := Int.floor_nonneg.mpr (by linarith)
  exact_mod_cast this

lemma settle_fst_nonneg (sv db net : ℚ) (h : 0 ≤ sv) :
    0 ≤ (settle sv db net).1 := by
  unfold settle
  split
  · simp only; linarith
  · simp only
    split
    · simp only; linarith
    · simp only; exact le_refl 0

lemma settle_snd_ge (sv db net : ℚ) : db ≤ (settle sv db net).2 := by
  unfold settle
  split
  · simp only; exact le_refl db
  · simp only
    split
    · simp only; exact le_refl db
    · simp only
      rename_i h1 h2
      have : 0 < -net - sv := by
        push_neg at h1 h2
        linarith
      linarith

lemma tick_savings_def (r1 r2 : ℚ) (s : GameStats) :
    (endOfPeriodTick r1 r2 s).stats.savings =
      (if 0 < (settle s.savings s.debt
          (s.income - s.fixedExpenses - variableSpend r1 r2 s)).1 then
        (settle s.savings s.debt
          (s.income - s.fixedExpenses - variableSpend r1 r2 s)).1 +
          jsRound ((settle s.savings s.debt
            (s.income - s.fixedExpenses - variableSpend r1 r2 s)).1 * (1/500))
      else
        (settle s.savings s.debt
          (s.income - s.fixedExpenses - variableSpend r1 r2 s)).1) := rfl

lemma tick_debt_def (r1 r2 : ℚ) (s : GameStats) :
    (endOfPeriodTick r1 r2 s).stats.debt =
      (if 0 < (settle s.savings s.debt
          (s.income - s.fixedExpenses - variableSpend r1 r2 s)).2 then
        (settle s.savings s.debt
          (s.income - s.fixedExpenses - variableSpend r1 r2 s)).2 +
          jsRound ((settle s.savings s.debt
            (s.income - s.fixedExpenses - variableSpend r1 r2 s)).2 * (1/100))
      else
        (settle s.savings s.debt
          (s.income - s.fixedExpenses - variableSpend r1 r2 s)).2) := rfl

lemma tick_happiness_def (r1 r2 : ℚ) (s : GameStats) :
    (endOfPeriodTick r1 r2 s).stats.happiness =
      clamp (s.happiness +
        (if 0 ≤ s.income - s.fixedExpenses - variableSpend r1 r2 s then 1 else -2))
        0 100 := rfl

lemma tick_stress_def (r1 r2 : ℚ) (s : GameStats) :
    (endOfPeriodTick r1 r2 s).stats.stress =
      clamp (s.stress +
        (if 0 ≤ s.income - s.fixedExpenses - variableSpend r1 r2 s then -1 else 3))
        0 100 := rfl

lemma tick_impulse_def (r1 r2 : ℚ) (s : GameStats) :
    (endOfPeriodTick r1 r2 s).stats.impulse = clamp (s.impulse - 1) 0 100 := rfl

lemma wrScan_mem {α : Type} :
    ∀ (l : List (α × ℚ)) (r : ℚ) (a : α), wrScan l r = some a → ∃ p ∈ l, p.1 = a
  | [], r, a, h => by simp [wrScan] at h
  | x :: xs, r, a, h => by
      unfold wrScan at h
      split at h
      · exact ⟨x, List.mem_cons_self _ _, by injection h⟩
      · obtain ⟨p, hp, hpa⟩ := wrScan_mem xs (r - x.2) a h
        exact ⟨p, List.mem_cons_of_mem _ hp, hpa⟩

lemma weightedRandom_mem {α : Type} (items : List (α × ℚ)) (r : ℚ) (a : α)
    (h : weightedRandom items r = some a) : ∃ p ∈ items, p.1 = a := by
  unfold weightedRandom at h
  simp only at h
  split at h
  · rename_i b hb
    injection h with h
    exact h ▸ wrScan_mem items _ b hb
  · rename_i hb
    obtain ⟨p, hp, hpa⟩ := Option.map_eq_some'.mp h
    have hne : items ≠ [] := by
      intro hnil
      rw [hnil] at hp
      simp at hp
    rw [List.getLast?_eq_getLast items hne] at hp
    injection hp with hp
    refine ⟨p, ?_, hpa⟩
    rw [← hp]
    exact List.getLast_mem hne

lemma weightedRandom_isSome {α : Type} (items : List (α × ℚ)) (r : ℚ)
    (h : items ≠ []) : ∃ a, weightedRandom items r = some a := by
  unfold weightedRandom
  simp only
  split
  · rename_i b hb
    exact ⟨b, rfl⟩
  · rename_i hb
    rw [List.getLast?_eq_getLast items h]
    exact ⟨(items.getLast h).1, rfl⟩

lemma jsIndex_mem {α : Type} {l : List α} {i : ℤ} {a : α}
    (h : jsIndex l i = some a) : a ∈ l := by
  unfold jsIndex at h
  split at h
  · exact List.get?_mem h
  · exact absurd h (by simp)

lemma jsIndex_isSome {α : Type} (l : List α) (r : ℚ) (h0 : 0 ≤ r) (h1 : r < 1)
    (hl : 0 < l.length) : ∃ a, jsIndex l ⌊r * (l.length : ℚ)⌋ = some a := by
  have hn0 : (0:ℚ) ≤ r * (l.length : ℚ) := by positivity
  have hfl0 : (0:ℤ) ≤ ⌊r * (l.length : ℚ)⌋ := Int.floor_nonneg.mpr hn0
  have hflt : ⌊r * (l.length : ℚ)⌋ < (l.length : ℤ) := by
    rw [Int.floor_lt]
    push_cast
    calc r * (l.length : ℚ) < 1 * (l.length : ℚ) := by
          apply mul_lt_mul_of_pos_right h1
          exact_mod_cast hl
      _ = (l.length : ℚ) := one_mul _
  have hlt : (⌊r * (l.length : ℚ)⌋).toNat < l.length :=
    (Int.toNat_lt hfl0).mpr hflt
  unfold jsIndex
  rw [if_pos hfl0, List.get?_eq_get hlt]
  exact ⟨_, rfl⟩

lemma pickEvent_mem_candidates (custom : List GameEvent) (st : GameState)
    (r : ℚ) (ev : GameEvent)
    (hc : ((resolvePack custom st.scenarioId).filter (isCandidate st)).length ≠ 0)
    (hp : pickEvent custom st r = some ev) :
    ev ∈ (resolvePack custom st.scenarioId).filter (isCandidate st) := by
  unfold pickEvent at hp
  simp only at hp
  rw [List.length_map, if_neg hc] at hp
  obtain ⟨p, hpmem, hpa⟩ := weightedRandom_mem _ _ _ hp
  obtain ⟨x, hx, hxp⟩ := List.mem_map.mp hpmem
  rw [← hpa, ← hxp]
  exact hx

/-! The claims. -/

/-- C1: Budget derivation invariant — for every stat vector and effect delta
(budget keys included), `applyEffects` leaves `budget` equal to the
post-delta `income - fixedExpenses`; and for every stat vector and every
pair of random draws, the tick sets `budget` to the pre-tick
`income - fixedExpenses`. -/
theorem budget_invariant :
    (∀ (s : GameStats) (e : EventEffect),
      (applyEffects s e).budget =
        (applyEffects s e).income - (applyEffects s e).fixedExpenses) ∧
    (∀ (r1 r2 : ℚ) (s : GameStats),
      (endOfPeriodTick r1 r2 s).stats.budget = s.income - s.fixedExpenses) :=
  ⟨fun _ _ => rfl, fun _ _ _ => rfl⟩

/-- C2: Total selection — for every custom catalog, every game state and
every draw in `[0,1)`, `pickEvent` returns some event, and that event
belongs to the resolved pack or to the classic catalog. -/
theorem pickEvent_total (custom : List GameEvent) (st : GameState) (r : ℚ)
    (h0 : 0 ≤ r) (h1 : r < 1) :
    ∃ ev, pickEvent custom st r = some ev ∧
      (ev ∈ resolvePack custom st.scenarioId ∨ ev ∈ classicEvents) := by
  unfold pickEvent
  simp only
  by_cases hw : (((resolvePack custom st.scenarioId).filter (isCandidate st)).map
      (fun ev => (ev, effectiveWeight st.lastTag ev))).length = 0
  · rw [if_pos hw]
    by_cases hf : 0 < ((resolvePack custom st.scenarioId).filter
        (condPasses st.stats)).length
    · rw [if_pos hf]
      obtain ⟨a, ha⟩ := jsIndex_isSome _ r h0 h1 hf
      exact ⟨a, ha, Or.inl (List.mem_filter.mp (jsIndex_mem ha)).1⟩
    · rw [if_neg hf]
      cases hj : jsIndex (classicEvents.filter (condPasses st.stats))
          ⌊r * ((classicEvents.filter (condPasses st.stats)).length : ℚ)⌋ with
      | some a =>
          exact ⟨a, rfl, Or.inr (List.mem_filter.mp (jsIndex_mem hj)).1⟩
      | none =>
          exact ⟨classicPayDebt, rfl, Or.inr (by simp [classicEvents])⟩
  · rw [if_neg hw]
    have hc : ((resolvePack custom st.scenarioId).filter
        (isCandidate st)).length ≠ 0 := by
      rw [List.length_map] at hw
      exact hw
    have hne : ((resolvePack custom st.scenarioId).filter (isCandidate st)).map
        (fun ev => (ev, effectiveWeight st.lastTag ev)) ≠ [] := by
      intro hnil
      rw [hnil] at hw
      exact hw rfl
    obtain ⟨a, ha⟩ := weightedRandom_isSome _ r hne
    obtain ⟨p, hpmem, hpa⟩ := weightedRandom_mem _ _ _ ha
    obtain ⟨x, hx, hxp⟩ := List.mem_map.mp hpmem
    refine ⟨a, ha, Or.inl ?_⟩
    rw [← hpa, ← hxp]
    exact (List.mem_filter.mp hx).1

/-- Witness for C2 at a fresh classic game and draw 0. -/
theorem pickEvent_total_witness :
    ∃ ev, pickEvent [] freshClassicState 0 = some ev ∧
      (ev ∈ resolvePack [] freshClassicState.scenarioId ∨ ev ∈ classicEvents) :=
  pickEvent_total [] freshClassicState 0 (le_refl 0) (by norm_num)

/-- Counterexample to C3 as stated: in `cexState` every classic event is
within its cooldown window (all seen at the current month 1), yet
`pickEvent` returns negotiate-bills — whose cooldown of 4 months has not
elapsed — through the condition-only fallback branch. -/
theorem pickEvent_cooldown_cex :
    pickEvent [] cexState 0 = some classicNegotiateBills ∧
    cexState.lastSeen.lookup classicNegotiateBills.id = some 1 ∧
    cexState.stats.month - 1 < classicNegotiateBills.cooldown.getD 0 := by
  refine ⟨?_, ?_, ?_⟩
  · simp [pickEvent, resolvePack, scenarioEvents, classicEvents, List.filter,
      isCandidate, condPasses, onCooldown, payDebtCond, effectiveWeight,
      weightedRandom, wrScan, jsIndex, cexState, cexStats, classicPayDebt,
      classicNegotiateBills, classicSideGig, classicImpulseBuy,
      classicUnexpectedBill, classicRentChange, classicAnnualRaise, List.lookup,
      show decide ((1000:ℚ) ≤ 0) = false by rw [decide_eq_false_iff_not]; norm_num,
      show decide ((100:ℚ) < 0) = false by rw [decide_eq_false_iff_not]; norm_num,
      show decide ((1:ℚ) - 1 < 2) = true by rw [decide_eq_true_eq]; norm_num,
      show decide ((1:ℚ) - 1 < 3) = true by rw [decide_eq_true_eq]; norm_num,
      show decide ((1:ℚ) - 1 < 4) = true by rw [decide_eq_true_eq]; norm_num,
      show decide ((1:ℚ) - 1 < 6) = true by rw [decide_eq_true_eq]; norm_num]
  · simp [cexState, classicNegotiateBills, List.lookup]
  · norm_num [cexState, cexStats, classicNegotiateBills]

/-- C3 (amended): whenever the candidate filter (repeat ban, condition,
cooldown) leaves at least one event, the event returned by `pickEvent` is
never within its cooldown window: if it was last seen at month `m`, then
`month - m < cooldown` fails. -/
theorem pickEvent_cooldown_eligible (custom : List GameEvent) (st : GameState)
    (r : ℚ) (ev : GameEvent) (m : ℚ)
    (hc : ((resolvePack custom st.scenarioId).filter (isCandidate st)).length ≠ 0)
    (hp : pickEvent custom st r = some ev)
    (hm : st.lastSeen.lookup ev.id = some m) :
    ¬(st.stats.month - m < ev.cooldown.getD 0) := by
  have hmem := pickEvent_mem_candidates custom st r ev hc hp
  have hcand := (List.mem_filter.mp hmem).2
  unfold isCandidate at hcand
  simp only [Bool.and_eq_true, Bool.not_eq_true'] at hcand
  have hcool := hcand.2
  unfold onCooldown at hcool
  rw [hm] at hcool
  simpa using hcool

/-- Witness for the amended C3: at month 5, negotiate-bills (seen at month
1, cooldown 4) is picked and is indeed outside its cooldown window. -/
theorem pickEvent_cooldown_eligible_witness :
    ¬(seenState.stats.month - 1 < classicNegotiateBills.cooldown.getD 0) :=
  pickEvent_cooldown_eligible [] seenState 0 classicNegotiateBills 1
    (by simp [resolvePack, scenarioEvents, classicEvents, List.filter,
      isCandidate, condPasses, onCooldown, payDebtCond, seenState, seenStats,
      classicPayDebt, classicNegotiateBills, classicSideGig, classicImpulseBuy,
      classicUnexpectedBill, classicRentChange, classicAnnualRaise, List.lookup,
      show decide ((1000:ℚ) ≤ 0) = false by rw [decide_eq_false_iff_not]; norm_num,
      show decide ((100:ℚ) < 0) = false by rw [decide_eq_false_iff_not]; norm_num,
      show decide ((5:ℚ) - 1 < 4) = false by rw [decide_eq_false_iff_not]; norm_num])
    (by simp [pickEvent, resolvePack, scenarioEvents, classicEvents, List.filter,
      isCandidate, condPasses, onCooldown, payDebtCond, effectiveWeight,
      weightedRandom, wrScan, jsIndex, seenState, seenStats, classicPayDebt,
      classicNegotiateBills, classicSideGig, classicImpulseBuy,
      classicUnexpectedBill, classicRentChange, classicAnnualRaise, List.lookup,
      show decide ((1000:ℚ) ≤ 0) = false by rw [decide_eq_false_iff_not]; norm_num,
      show decide ((100:ℚ) < 0) = false by rw [decide_eq_false_iff_not]; norm_num,
      show decide ((5:ℚ) - 1 < 4) = false by rw [decide_eq_false_iff_not]; norm_num])
    (by simp [seenState, classicNegotiateBills, List.lookup])

/-- Counterexample to C4 as stated: passing a list that reuses the
structural id "pay-debt-custom" produces a custom catalog holding two
events with that id — the setter appends without de-duplicating. -/
theorem setCustomEvents_duplicate_cex :
    ((setCustomEvents [rogueEvent]).countP
      (fun ev => decide (ev.id = "pay-debt-custom"))) = 2 := by
  simp [setCustomEvents, rogueEvent, debtEventCustom, expenseEventCustom,
    List.countP_cons]

/-- C4 (amended): after `setCustomEvents events` where no supplied event
reuses a structural id, the resulting catalog — computed from the argument
alone, replacing any previous catalog — contains exactly one event with the
debt-repayment id and exactly one with the expense-reduction id. -/
theorem setCustomEvents_structural_unique (events : List GameEvent)
    (h : ∀ ev ∈ events, ev.id ≠ "pay-debt-custom" ∧ ev.id ≠ "cut-expense-custom") :
    ((setCustomEvents events).countP
        (fun ev => decide (ev.id = "pay-debt-custom"))) = 1 ∧
    ((setCustomEvents events).countP
        (fun ev => decide (ev.id = "cut-expense-custom"))) = 1 := by
  unfold setCustomEvents
  rw [List.countP_append, List.countP_append]
  have h1 : events.countP (fun ev => decide (ev.id = "pay-debt-custom")) = 0 :=
    List.countP_eq_zero.mpr (fun a ha => by simpa using (h a ha).1)
  have h2 : events.countP (fun ev => decide (ev.id = "cut-expense-custom")) = 0 :=
    List.countP_eq_zero.mpr (fun a ha => by simpa using (h a ha).2)
  rw [h1, h2]
  constructor <;>
    simp [debtEventCustom, expenseEventCustom, List.countP_cons]

/-- Witness for the amended C4 at the empty supplied list. -/
theorem setCustomEvents_structural_unique_witness :
    ((setCustomEvents []).countP
        (fun ev => decide (ev.id = "pay-debt-custom"))) = 1 ∧
    ((setCustomEvents []).countP
        (fun ev => decide (ev.id = "cut-expense-custom"))) = 1 :=
  setCustomEvents_structural_unique [] (by intro ev h; cases h)

/-- C5: Savings non-negativity — starting from non-negative savings, the
tick never produces negative savings, for every pair of random draws. -/
theorem tick_savings_nonneg (r1 r2 : ℚ) (s : GameStats) (h : 0 ≤ s.savings) :
    0 ≤ (endOfPeriodTick r1 r2 s).stats.savings := by
  rw [tick_savings_def]
  have h1 := settle_fst_nonneg s.savings s.debt
    (s.income - s.fixedExpenses - variableSpend r1 r2 s) h
  split
  · have h2 := jsRound_nonneg (mul_nonneg h1 (by norm_num : (0:ℚ) ≤ 1/500))
    linarith
  · exact h1

/-- Witness for C5 at the classic base stats and draws 0, 0. -/
theorem tick_savings_nonneg_witness :
    0 ≤ (endOfPeriodTick 0 0 baseStats).stats.savings :=
  tick_savings_nonneg 0 0 baseStats (by norm_num [baseStats])

/-- C6: Tick month/mood/impulse postcondition — with `net` the income minus
fixed expenses minus the impulse spend of the draw, the tick increments the
month and clamps happiness, stress and impulse exactly as specified, so all
three land in `[0, 100]`. -/
theorem tick_mood_month_spec (r1 r2 : ℚ) (s : GameStats) :
    ((endOfPeriodTick r1 r2 s).stats.month = s.month + 1) ∧
    ((endOfPeriodTick r1 r2 s).stats.happiness =
      clamp (s.happiness +
        (if 0 ≤ s.income - s.fixedExpenses - variableSpend r1 r2 s then 1 else -2))
        0 100) ∧
    ((endOfPeriodTick r1 r2 s).stats.stress =
      clamp (s.stress +
        (if 0 ≤ s.income - s.fixedExpenses - variableSpend r1 r2 s then -1 else 3))
        0 100) ∧
    ((endOfPeriodTick r1 r2 s).stats.impulse = clamp (s.impulse - 1) 0 100) ∧
    (0 ≤ (endOfPeriodTick r1 r2 s).stats.happiness ∧
      (endOfPeriodTick r1 r2 s).stats.happiness ≤ 100) ∧
    (0 ≤ (endOfPeriodTick r1 r2 s).stats.stress ∧
      (endOfPeriodTick r1 r2 s).stats.stress ≤ 100) ∧
    (0 ≤ (endOfPeriodTick r1 r2 s).stats.impulse ∧
      (endOfPeriodTick r1 r2 s).stats.impulse ≤ 100) := by
  refine ⟨rfl, rfl, rfl, rfl, ?_, ?_, ?_⟩
  · rw [tick_happiness_def]
    exact ⟨clamp_nonneg _, clamp_le_hundred _⟩
  · rw [tick_stress_def]
    exact ⟨clamp_nonneg _, clamp_le_hundred _⟩
  · rw [tick_impulse_def]
    exact ⟨clamp_nonneg _, clamp_le_hundred _⟩

/-- C7: Deficit-to-debt scenario — with income 900, fixed expenses 1500,
savings 200, debt 0 and impulse 0 (so the impulse spend cannot trigger for
any draw in `[0,1)`), the tick zeroes savings and leaves debt
400 + round(400 * 0.01) = 404. -/
theorem tick_deficit_scenario (r1 r2 : ℚ) (s : GameStats)
    (hin : s.income = 900) (hfe : s.fixedExpenses = 1500) (hs : s.savings = 200)
    (hd : s.debt = 0) (him : s.impulse = 0) (hr : 0 ≤ r1) :
    (endOfPeriodTick r1 r2 s).stats.savings = 0 ∧
    (endOfPeriodTick r1 r2 s).stats.debt = 404 := by
  have hvs : variableSpend r1 r2 s = 0 := by
    unfold variableSpend impulseProb
    rw [him]
    rw [if_neg]
    norm_num
    linarith
  rw [tick_savings_def, tick_debt_def, hvs, hin, hfe, hs, hd]
  norm_num [settle, jsRound]

/-- Witness for C7 at the concrete deficit stat vector and draws 0, 0. -/
theorem tick_deficit_scenario_witness :
    (endOfPeriodTick 0 0 deficitStats).stats.savings = 0 ∧
    (endOfPeriodTick 0 0 deficitStats).stats.debt = 404 :=
  tick_deficit_scenario 0 0 deficitStats rfl rfl rfl rfl rfl (le_refl 0)

/-- C8: No-immediate-repeat — whenever the candidate filter leaves at least
one event, the event returned by `pickEvent` never has the id recorded in
`lastEventId`. -/
theorem pickEvent_no_immediate_repeat (custom : List GameEvent) (st : GameState)
    (r : ℚ) (ev : GameEvent)
    (hc : ((resolvePack custom st.scenarioId).filter (isCandidate st)).length ≠ 0)
    (hp : pickEvent custom st r = some ev) :
    st.lastEventId ≠ some ev.id := by
  have hmem := pickEvent_mem_candidates custom st r ev hc hp
  have hcand := (List.mem_filter.mp hmem).2
  unfold isCandidate at hcand
  simp only [Bool.and_eq_true, Bool.not_eq_true'] at hcand
  have := hcand.1.1
  simpa using this

/-- Witness for C8: with negotiate-bills as the last event, draw 0 picks
side-gig, whose id differs from the recorded one. -/
theorem pickEvent_no_immediate_repeat_witness :
    repeatState.lastEventId ≠ some classicSideGig.id :=
  pickEvent_no_immediate_repeat [] repeatState 0 classicSideGig
    (by simp [resolvePack, scenarioEvents, classicEvents, List.filter,
      isCandidate, condPasses, onCooldown, payDebtCond, repeatState, baseStats,
      classicPayDebt, classicNegotiateBills, classicSideGig, classicImpulseBuy,
      classicUnexpectedBill, classicRentChange, classicAnnualRaise, List.lookup,
      show decide ((1000:ℚ) ≤ 1000) = true by rw [decide_eq_true_eq],
      show decide ((0:ℚ) < 0) = false by rw [decide_eq_false_iff_not]; norm_num,
      show decide ((100:ℚ) < 1000) = true by rw [decide_eq_true_eq]; norm_num])
    (by simp [pickEvent, resolvePack, scenarioEvents, classicEvents, List.filter,
      isCandidate, condPasses, onCooldown, payDebtCond, effectiveWeight,
      weightedRandom, wrScan, jsIndex, repeatState, baseStats, classicPayDebt,
      classicNegotiateBills, classicSideGig, classicImpulseBuy,
      classicUnexpectedBill, classicRentChange, classicAnnualRaise, List.lookup,
      show decide ((1000:ℚ) ≤ 1000) = true by rw [decide_eq_true_eq],
      show decide ((0:ℚ) < 0) = false by rw [decide_eq_false_iff_not]; norm_num,
      show decide ((100:ℚ) < 1000) = true by rw [decide_eq_true_eq]; norm_num])

/-- C9: Effect-applier contract and frame — `applyEffects` adds each
present delta to its stat (absent keys add nothing), leaves `month`
unchanged, recomputes `budget` from the post-delta income and fixed
expenses, and applies no clamping: the listed formulas are exact. -/
theorem applyEffects_spec (s : GameStats) (e : EventEffect) :
    (applyEffects s e).month = s.month ∧
    (applyEffects s e).impulse = s.impulse + e.impulse.getD 0 ∧
    (applyEffects s e).savings = s.savings + e.savings.getD 0 ∧
    (applyEffects s e).debt = s.debt + e.debt.getD 0 ∧
    (applyEffects s e).income = s.income + e.income.getD 0 ∧
    (applyEffects s e).fixedExpenses = s.fixedExpenses + e.fixedExpenses.getD 0 ∧
    (applyEffects s e).happiness = s.happiness + e.happiness.getD 0 ∧
    (applyEffects s e).stress = s.stress + e.stress.getD 0 ∧
    (applyEffects s e).budget =
      (s.income + e.income.getD 0) - (s.fixedExpenses + e.fixedExpenses.getD 0) :=
  ⟨rfl, rfl, rfl, rfl, rfl, rfl, rfl, rfl, rfl⟩

/-- C10: A tick never decreases debt — settlement only adds to debt and
the interest step adds a non-negative rounded amount, for every stat
vector and every pair of random draws. -/
theorem tick_debt_monotone (r1 r2 : ℚ) (s : GameStats) :
    s.debt ≤ (endOfPeriodTick r1 r2 s).stats.debt := by
  rw [tick_debt_def]
  have h1 := settle_snd_ge s.savings s.debt
    (s.income - s.fixedExpenses - variableSpend r1 r2 s)
  split
  · rename_i hpos
    have h2 := jsRound_nonneg
      (mul_nonneg (le_of_lt hpos) (by norm_num : (0:ℚ) ≤ 1/100))
    linarith
  · exact h1

end Centible
